import Mathlib

/-!
Shallow embedding of the knowledge-graph visualization front end:
the graph data model (src/unnamed/part_001), the highlighting /
auto-center pass and the simulation life-cycle of the `KnowledgeGraph`
component (src/unnamed/part_000), and the generation / import / export
state handling of `App` (src/App.tsx).

Numbers that the browser represents as IEEE doubles (coordinates,
dimensions, zoom scales) are embedded as rationals; strings are Lean
strings; JavaScript `undefined` on an optional field is `Option.none`.
-/

namespace KnowledgeGraphApp

/-- Node record (src/unnamed/part_001, `GraphNode`): id, label, group,
optional description, and the simulation-owned optional coordinate and
pin fields. -/
structure GraphNode where
  id : String
  label : String
  group : String
  description : Option String := none
  x : Option ℚ := none
  y : Option ℚ := none
  vx : Option ℚ := none
  vy : Option ℚ := none
  fx : Option ℚ := none
  fy : Option ℚ := none
deriving DecidableEq, Repr

/-- Link endpoint (src/unnamed/part_001, `GraphLink.source : string | GraphNode`):
either a bare node id or a resolved node reference. -/
inductive NodeRef where
  | id (s : String)
  | node (n : GraphNode)
deriving DecidableEq, Repr

/-- The id of an endpoint: `typeof x === 'object' ? x.id : x`
(src/unnamed/part_000 lines 237-238, 246-247 and src/App.tsx `getNodeId`). -/
def NodeRef.refId : NodeRef → String
  | .id s => s
  | .node n => n.id

/-- Link record (src/unnamed/part_001, `GraphLink`). -/
structure GraphLink where
  source : NodeRef
  target : NodeRef
  relation : String
deriving DecidableEq, Repr

/-- Graph record (src/unnamed/part_001, `GraphData`). -/
structure GraphData where
  nodes : List GraphNode
  links : List GraphLink
deriving DecidableEq, Repr

/-- JavaScript `String.prototype.toLowerCase` as used on the labels:
each character is lower-cased (ASCII letters change, the CJK characters
of the sample data are fixed points). -/
def jsToLower (s : String) : String := ⟨s.data.map Char.toLower⟩

/-- JavaScript `s.includes(t)`: `t` occurs in `s` as a contiguous
substring of characters. -/
def jsIncludes (s t : String) : Bool := decide (t.data <:+: s.data)

/-- The node-label search predicate
`d.label.toLowerCase().includes(filterText.toLowerCase())`
(src/unnamed/part_000 line 232). -/
def labelMatches (d : GraphNode) (filterText : String) : Bool :=
  jsIncludes (jsToLower d.label) (jsToLower filterText)

/-- Per-node highlight flag (src/unnamed/part_000 lines 230-242,
`isNodeHighlighted`): the search branch is tested first, then the
selection branch, and the function falls through to `true`. -/
def isNodeHighlighted (data : GraphData) (filterText : String)
    (selectedNode : Option GraphNode) (d : GraphNode) : Bool :=
  if 0 < filterText.length then
    labelMatches d filterText
  else
    match selectedNode with
    | some sel =>
        d.id == sel.id ||
        data.links.any fun l =>
          (l.source.refId == sel.id && l.target.refId == d.id) ||
          (l.target.refId == sel.id && l.source.refId == d.id)
    | none => true

/-- Endpoint resolution used by the link search branch
(src/unnamed/part_000 lines 251-252): an object endpoint is used as is,
a string endpoint is looked up in `data.nodes`. -/
def resolveRef (data : GraphData) : NodeRef → Option GraphNode
  | .node n => some n
  | .id s => data.nodes.find? fun n => n.id == s

/-- Per-link highlight flag (src/unnamed/part_000 lines 244-258,
`isLinkHighlighted`): the selection branch is tested first, then the
search branch (both endpoints must resolve and match), falling through
to `true`. -/
def isLinkHighlighted (data : GraphData) (filterText : String)
    (selectedNode : Option GraphNode) (l : GraphLink) : Bool :=
  match selectedNode with
  | some sel => l.source.refId == sel.id || l.target.refId == sel.id
  | none =>
    if 0 < filterText.length then
      match resolveRef data l.source, resolveRef data l.target with
      | some sourceNode, some targetNode =>
          labelMatches sourceNode filterText && labelMatches targetNode filterText
      | _, _ => false
    else
      true

/-- Default (inactive) link stroke color (src/unnamed/part_000 lines 224, 266). -/
def defaultStroke : String := "#cbd5e1"

/-- Accent stroke color for highlighted links (src/unnamed/part_000 line 266). -/
def accentStroke : String := "#6366f1"

/-- Node opacity applied by the highlight effect (src/unnamed/part_000
lines 222-227 and 261-262): everything is reset to opacity 1 when
neither search nor selection is active, otherwise highlighted nodes get
1 and the rest get 0.1. -/
def nodeOpacity (data : GraphData) (filterText : String)
    (selectedNode : Option GraphNode) (d : GraphNode) : ℚ :=
  if filterText.length == 0 && selectedNode.isNone then 1
  else if isNodeHighlighted data filterText selectedNode d then 1 else 1/10

/-- Link opacity applied by the highlight effect (src/unnamed/part_000
lines 222-227 and 264-265). -/
def linkOpacity (data : GraphData) (filterText : String)
    (selectedNode : Option GraphNode) (l : GraphLink) : ℚ :=
  if filterText.length == 0 && selectedNode.isNone then 1
  else if isLinkHighlighted data filterText selectedNode l then 1 else 1/10

/-- Link stroke applied by the highlight effect (src/unnamed/part_000
lines 224 and 266). -/
def linkStroke (data : GraphData) (filterText : String)
    (selectedNode : Option GraphNode) (l : GraphLink) : String :=
  if filterText.length == 0 && selectedNode.isNone then defaultStroke
  else if isLinkHighlighted data filterText selectedNode l then accentStroke
  else defaultStroke

/-- The initial sample graph (src/App.tsx lines 9-23, `INITIAL_DATA`). -/
def INITIAL_DATA : GraphData :=
  { nodes :=
      [ { id := "ai", label := "人工智能", group := "技术" },
        { id := "ml", label := "机器学习", group := "技术" },
        { id := "dl", label := "深度学习", group := "技术" },
        { id := "nn", label := "神经网络", group := "概念" },
        { id := "gemini", label := "Gemini", group := "模型" } ],
    links :=
      [ { source := .id "ai", target := .id "ml", relation := "包含" },
        { source := .id "ml", target := .id "dl", relation := "包含" },
        { source := .id "dl", target := .id "nn", relation := "使用" },
        { source := .id "gemini", target := .id "ai", relation := "属于" } ] }

/-- Viewport transform of the zoom behavior: uniform scale `k` and
translation `(x, y)`, applied as `p ↦ k * p + (x, y)`. -/
structure ZoomTransform where
  k : ℚ
  x : ℚ
  y : ℚ
deriving DecidableEq, Repr

/-- The identity transform `d3.zoomIdentity`. -/
def zoomIdentity : ZoomTransform := { k := 1, x := 0, y := 0 }

/-- Transform composition `t.translate(a, b)`. -/
def ZoomTransform.translate (t : ZoomTransform) (a b : ℚ) : ZoomTransform :=
  { k := t.k, x := t.x + t.k * a, y := t.y + t.k * b }

/-- Transform composition `t.scale(m)`. -/
def ZoomTransform.scale (t : ZoomTransform) (m : ℚ) : ZoomTransform :=
  { k := t.k * m, x := t.x, y := t.y }

/-- Applying a transform to a point, `t.apply([px, py])`. -/
def ZoomTransform.apply (t : ZoomTransform) (px py : ℚ) : ℚ × ℚ :=
  (t.k * px + t.x, t.k * py + t.y)

/-- The component's `dimensions` state (src/unnamed/part_000 line 15). -/
structure Dimensions where
  width : ℚ
  height : ℚ
deriving DecidableEq, Repr

/-- JavaScript truthiness of the optional numeric fields `firstMatch.x`
and `firstMatch.y` (src/unnamed/part_000 line 274): an absent field and
the number 0 are both falsy. -/
def truthyNum : Option ℚ → Bool
  | none => false
  | some q => q != 0

/-- A pending programmatic viewport animation: target transform and
duration in milliseconds. -/
structure CenterAction where
  transform : ZoomTransform
  durationMs : ℕ
deriving DecidableEq, Repr

/-- Auto-center step of the highlight effect (src/unnamed/part_000
lines 271-282): when search is active, the first node of `data.nodes`
whose label matches is looked up; only if its `x` and `y` fields are
both truthy is a 750 ms transition to the centering transform issued. -/
def autoCenter (data : GraphData) (filterText : String)
    (dimensions : Dimensions) : Option CenterAction :=
  if 0 < filterText.length then
    match data.nodes.find? (fun n => labelMatches n filterText) with
    | some firstMatch =>
        if truthyNum firstMatch.x && truthyNum firstMatch.y then
          some { transform :=
                   (((zoomIdentity.translate (dimensions.width / 2)
                        (dimensions.height / 2)).scale (3/2)).translate
                     (-(firstMatch.x.getD 0)) (-(firstMatch.y.getD 0))),
                 durationMs := 750 }
        else none
    | none => none
  else none

/-- Configured zoom scale bounds, `scaleExtent([0.1, 4])`
(src/unnamed/part_000 line 85). -/
def scaleExtentLo : ℚ := 1/10

/-- Upper zoom scale bound of `scaleExtent([0.1, 4])`. -/
def scaleExtentHi : ℚ := 4

/-- Modelled from the spec: the external d3 zoom behavior, which the
repository only configures (src/unnamed/part_000 lines 84-91), bounds
the viewport scale to the configured scale extent on every gesture, so
a gesture proposing scale `proposed` results in the proposal clamped to
`[scaleExtentLo, scaleExtentHi]`. -/
def applyZoomGesture (_current proposed : ℚ) : ℚ :=
  max scaleExtentLo (min scaleExtentHi proposed)

/-- The viewport scale after a sequence of zoom gestures, starting from
scale `k0`. -/
def zoomScaleAfter (gestures : List ℚ) (k0 : ℚ) : ℚ :=
  gestures.foldl applyZoomGesture k0

/-- Parsed JSON values, for the import path (src/App.tsx lines 85-118);
`JSON.parse` failure is represented by the caller passing `none`. -/
inductive Json where
  | null
  | bool (b : Bool)
  | num (q : ℚ)
  | str (s : String)
  | arr (elems : List Json)
  | obj (fields : List (String × Json))

/-- Property access `j.key` on a parsed value: a field of an object,
`undefined` (here `none`) otherwise. -/
def Json.get? : Json → String → Option Json
  | .obj fields, key => (fields.find? fun f => f.1 == key).map (·.2)
  | _, _ => none

/-- JavaScript truthiness of a possibly-absent property value:
`undefined`, `null`, `false`, `0` and the empty string are falsy. -/
def truthyField : Option Json → Bool
  | none => false
  | some .null => false
  | some (.bool b) => b
  | some (.num q) => q != 0
  | some (.str s) => s != ""
  | some (.arr _) => true
  | some (.obj _) => true

/-- The per-node field check of the import validation,
`n.id && n.label` (src/App.tsx line 92). -/
def nodeFieldsValid (n : Json) : Bool :=
  truthyField (n.get? "id") && truthyField (n.get? "label")

/-- JSON branch of `handleFileUpload` (src/App.tsx lines 85-118),
modelled on the already-parsed content (`none` = unparsable file, which
the catch block turns into a rejection): the current graph value is
replaced only when `nodes` and `links` are arrays and every node has
truthy `id` and `label`; in every other case the current value is kept.
The parsed object is stored verbatim on success, as in the source. -/
def handleFileUpload (current : Json) (content : Option Json) : Json :=
  match content with
  | none => current
  | some parsedData =>
    match parsedData.get? "nodes", parsedData.get? "links" with
    | some (.arr ns), some (.arr _) =>
        if ns.all nodeFieldsValid then parsedData else current
    | _, _ => current

/-- One run of the force simulation (src/unnamed/part_000 lines 66-72):
its private working copies of the nodes and links, the drag-controlled
alpha target, and whether `simulation.stop()` has been called. -/
structure Simulation where
  nodes : List GraphNode
  links : List GraphLink
  alphaTarget : ℚ
  stopped : Bool
deriving DecidableEq, Repr

/-- The node spread `({ ...d })` of the deep copy
(src/unnamed/part_000 line 62): a fresh record with the same fields. -/
def copyNode (d : GraphNode) : GraphNode :=
  { id := d.id, label := d.label, group := d.group,
    description := d.description, x := d.x, y := d.y, vx := d.vx,
    vy := d.vy, fx := d.fx, fy := d.fy }

/-- The link spread `({ ...d })` of the deep copy
(src/unnamed/part_000 line 63). -/
def copyLink (l : GraphLink) : GraphLink :=
  { source := l.source, target := l.target, relation := l.relation }

/-- A fresh simulation over deep copies of the given data
(src/unnamed/part_000 lines 61-72). -/
def mkSimulation (data : GraphData) : Simulation :=
  { nodes := data.nodes.map copyNode, links := data.links.map copyLink,
    alphaTarget := 0, stopped := false }

/-- Generation status record (src/unnamed/part_001, `GenerationStatus`). -/
structure Status where
  loading : Bool
  step : String
  message : String
deriving DecidableEq, Repr

/-- Combined state of `App` and the mounted `KnowledgeGraph` component:
the graph held in React state, the transient UI state (selection lives
in `App`, the search text in `KnowledgeGraph`), every simulation created
so far (newest first), what is currently drawn in the SVG (`none` when
it has never been drawn), and the generation status. -/
structure AppState where
  graphData : GraphData
  selectedNode : Option GraphNode
  filterText : String
  sims : List Simulation
  svg : Option GraphData
  status : Status
deriving DecidableEq, Repr

/-- React's cleanup of the previous simulation effect,
`() => simulation.stop()` (src/unnamed/part_000 line 206): the most
recently created simulation is stopped before the effect body re-runs. -/
def stopCurrent : List Simulation → List Simulation
  | [] => []
  | s :: rest => { s with stopped := true } :: rest

/-- One run of the simulation effect (src/unnamed/part_000 lines
51-207) after its dependency `data` changed: the previous effect's
cleanup stops the old simulation; then, if the node list is empty, the
body returns before clearing the SVG (line 52), leaving the previous
drawing in place; otherwise the SVG is cleared and redrawn and a fresh
simulation over deep copies is started. -/
def simulationEffect (s : AppState) : AppState :=
  let sims := stopCurrent s.sims
  if s.graphData.nodes.isEmpty then { s with sims := sims }
  else { s with sims := mkSimulation s.graphData :: sims, svg := some s.graphData }

/-- Wholesale graph replacement as performed by both the generation
success path (src/App.tsx lines 47, 58) and the import success path
(src/App.tsx lines 95-103): `App` stores the new data and clears the
selection, and the `KnowledgeGraph` simulation effect re-runs; the
component-local `filterText` state is not touched by either path. -/
def replaceGraph (s : AppState) (newData : GraphData) : AppState :=
  simulationEffect { s with graphData := newData, selectedNode := none }

/-- Outcome of the asynchronous `generateKnowledgeGraph` call. -/
inductive GenOutcome where
  | ok (data : GraphData)
  | err (message : String)

/-- The `handleGenerate` submit handler (src/App.tsx lines 42-67):
the selection is cleared up front; on success the graph is replaced, on
failure only the status record changes. -/
def handleGenerate (s : AppState) : GenOutcome → AppState
  | .ok d =>
      { replaceGraph { s with selectedNode := none } d with
        status := { loading := false, step := "complete", message := "图谱生成完毕!" } }
  | .err m =>
      { s with selectedNode := none,
               status := { loading := false, step := "error", message := m } }

/-- Events delivered to the running (most recent) simulation: a tick in
which the force engine assigns positions to some of its working nodes,
and the three drag handlers (src/unnamed/part_000 lines 175-204). -/
inductive SimEvent where
  | tick (positions : List (String × ℚ × ℚ))
  | dragStart (id : String)
  | dragMove (id : String) (px py : ℚ)
  | dragEnd (id : String)

/-- Effect of one event on a simulation's working state: ticks write
`x`/`y`, `dragstarted` raises the alpha target and pins the node at its
current position, `dragged` moves the pin, `dragended` lowers the alpha
target and clears the pin (src/unnamed/part_000 lines 175-204). -/
def stepSim : SimEvent → Simulation → Simulation
  | .tick ps, sim =>
      { sim with nodes := sim.nodes.map fun n =>
          match ps.find? (fun p => p.1 == n.id) with
          | some p => { n with x := some p.2.1, y := some p.2.2 }
          | none => n }
  | .dragStart id, sim =>
      { sim with alphaTarget := 3/10,
                 nodes := sim.nodes.map fun n =>
                   if n.id == id then { n with fx := n.x, fy := n.y } else n }
  | .dragMove id px py, sim =>
      { sim with nodes := sim.nodes.map fun n =>
          if n.id == id then { n with fx := some px, fy := some py } else n }
  | .dragEnd id, sim =>
      { sim with alphaTarget := 0,
                 nodes := sim.nodes.map fun n =>
                   if n.id == id then { n with fx := none, fy := none } else n }

/-- Simulation ticks and drag gestures act on the working copies of the
most recent simulation; no other component state is involved. -/
def applySimEvent (s : AppState) (e : SimEvent) : AppState :=
  { s with sims :=
      match s.sims with
      | [] => []
      | sim :: rest => stepSim e sim :: rest }

/-- Hexadecimal digit, for escaped control characters. -/
def hexDigit (n : ℕ) : Char :=
  if n < 10 then Char.ofNat (48 + n) else Char.ofNat (87 + n)

/-- JSON string escaping as performed by `JSON.stringify` on one
character: quote, backslash and the named control escapes, remaining
control characters as `\u00XX`. -/
def escapeChar (c : Char) : String :=
  if c = '"' then "\\\""
  else if c = '\\' then "\\\\"
  else if c = '\n' then "\\n"
  else if c = '\t' then "\\t"
  else if c = '\r' then "\\r"
  else if c = Char.ofNat 8 then "\\b"
  else if c = Char.ofNat 12 then "\\f"
  else if c.toNat < 32 then
    "\\u00" ++ String.mk [hexDigit (c.toNat / 16), hexDigit (c.toNat % 16)]
  else String.singleton c

/-- A JSON string literal. -/
def renderString (s : String) : String :=
  "\"" ++ String.join (s.data.map escapeChar) ++ "\""

/-- A JSON numeric literal; integral rationals are printed exactly, the
decimal formatting of non-integral doubles is abstracted by the rational
rendering. -/
def renderNum (q : ℚ) : String :=
  if q.den = 1 then toString q.num else toString q

/-- A run of spaces for the given indentation depth. -/
def indentPad (indent : ℕ) : String :=
  String.mk (List.replicate indent ' ')

mutual

/-- Pretty printer for `JSON.stringify(value, null, 2)`: two-space
indentation per nesting level, members one per line, `": "` between a
key and its value. -/
def renderJson (indent : ℕ) : Json → String
  | .null => "null"
  | .bool b => cond b "true" "false"
  | .num q => renderNum q
  | .str s => renderString s
  | .arr [] => "[]"
  | .arr (e :: es) =>
      "[\n" ++
        String.intercalate ",\n" (renderElems (indent + 2) (e :: es)) ++
        "\n" ++ indentPad indent ++ "]"
  | .obj [] => "\x7b\x7d"
  | .obj (f :: fs) =>
      "\x7b\n" ++
        String.intercalate ",\n" (renderFields (indent + 2) (f :: fs)) ++
        "\n" ++ indentPad indent ++ "\x7d"

/-- Array elements of the pretty printer, each on an indented line. -/
def renderElems (indent : ℕ) : List Json → List String
  | [] => []
  | e :: es => (indentPad indent ++ renderJson indent e) :: renderElems indent es

/-- Object members of the pretty printer, each on an indented line. -/
def renderFields (indent : ℕ) : List (String × Json) → List String
  | [] => []
  | f :: fs =>
      (indentPad indent ++ renderString f.1 ++ ": " ++ renderJson indent f.2) ::
        renderFields indent fs

end

/-- An optional record field, omitted from the serialized object when
absent (as `JSON.stringify` omits `undefined` properties). -/
def optField (name : String) : Option Json → List (String × Json)
  | some j => [(name, j)]
  | none => []

/-- The JSON value of a node record, fields in declaration order,
absent optional fields omitted. -/
def nodeToJson (n : GraphNode) : Json :=
  .obj ([("id", Json.str n.id), ("label", Json.str n.label),
         ("group", Json.str n.group)] ++
    optField "description" (n.description.map Json.str) ++
    optField "x" (n.x.map Json.num) ++ optField "y" (n.y.map Json.num) ++
    optField "vx" (n.vx.map Json.num) ++ optField "vy" (n.vy.map Json.num) ++
    optField "fx" (n.fx.map Json.num) ++ optField "fy" (n.fy.map Json.num))

/-- The JSON value of a link endpoint: a bare id serializes as a
string, a resolved reference as the nested node object. -/
def refToJson : NodeRef → Json
  | .id s => .str s
  | .node n => nodeToJson n

/-- The JSON value of a link record. -/
def linkToJson (l : GraphLink) : Json :=
  .obj [("source", refToJson l.source), ("target", refToJson l.target),
        ("relation", Json.str l.relation)]

/-- The JSON value of a whole graph. -/
def graphToJson (d : GraphData) : Json :=
  .obj [("nodes", Json.arr (d.nodes.map nodeToJson)),
        ("links", Json.arr (d.links.map linkToJson))]

/-- The `exportJSON` action (src/unnamed/part_000 lines 300-310):
`JSON.stringify(data, null, 2)` of the graph currently held in React
state — the `data` prop, not the simulation's working copies. -/
def exportJSON (s : AppState) : String :=
  renderJson 0 (graphToJson s.graphData)

/-- The "机器学习" node of the initial sample data. -/
def mlNode : GraphNode := { id := "ml", label := "机器学习", group := "技术" }

/-- The "人工智能" node of the initial sample data. -/
def aiNode : GraphNode := { id := "ai", label := "人工智能", group := "技术" }

/-- The initial sample link from "机器学习" to "深度学习". -/
def mlDlLink : GraphLink := { source := .id "ml", target := .id "dl", relation := "包含" }

/-- A small concrete graph used for replacement scenarios. -/
def sampleReplacement : GraphData :=
  { nodes := [{ id := "n1", label := "新节点", group := "g" }], links := [] }

/-- A concrete app state: the initial sample data is displayed, its
simulation is running, and the user has typed "机器学习" into the search
box of the graph component. -/
def stateBeforeReplace : AppState :=
  { graphData := INITIAL_DATA, selectedNode := none, filterText := "机器学习",
    sims := [mkSimulation INITIAL_DATA], svg := some INITIAL_DATA,
    status := { loading := false, step := "idle", message := "" } }

/-- A concrete import payload whose `nodes` field is a valid array but
whose `links` field is a string rather than an array. -/
def badLinksImport : Json :=
  .obj [("nodes", .arr [.obj [("id", .str "a"), ("label", .str "甲"),
                              ("group", .str "g")]]),
        ("links", .str "not-an-array")]

/-- A concrete import payload with empty `nodes` and `links` arrays. -/
def emptyGraphJson : Json := .obj [("nodes", .arr []), ("links", .arr [])]

/-- The empty graph, as decoded from `emptyGraphJson`. -/
def emptyGraph : GraphData := { nodes := [], links := [] }

/-- C1: with empty search text and a selected node, a node is
highlighted exactly when it is the selected node itself or shares a
link with it in either direction (a one-hop neighbor); any other node,
e.g. one two hops away, is not highlighted and receives opacity 0.1. -/
theorem selection_highlights_one_hop
    (data : GraphData) (sel d : GraphNode) :
    (isNodeHighlighted data "" (some sel) d = true ↔
      d.id = sel.id ∨ ∃ l ∈ data.links,
        (l.source.refId = sel.id ∧ l.target.refId = d.id) ∨
        (l.target.refId = sel.id ∧ l.source.refId = d.id)) ∧
    nodeOpacity data "" (some sel) d =
      (if isNodeHighlighted data "" (some sel) d then 1 else 1/10) := by
  have hlen : ¬ (0 < ("" : String).length) := by decide
  constructor
  · simp [isNodeHighlighted, hlen, List.any_eq_true]
  · simp [nodeOpacity]

/-- C2: with non-empty search text, a node is highlighted exactly when
the lower-cased search text occurs as a contiguous substring of its
lower-cased label, regardless of selection; in the initial sample data
the search "机器学习" highlights exactly the "机器学习" node. -/
theorem search_highlights_matching_labels :
    (∀ (data : GraphData) (selectedNode : Option GraphNode) (d : GraphNode)
        (filterText : String), 0 < filterText.length →
        (isNodeHighlighted data filterText selectedNode d = true ↔
          (jsToLower filterText).data <:+: (jsToLower d.label).data)) ∧
    INITIAL_DATA.nodes.filter (isNodeHighlighted INITIAL_DATA "机器学习" none) =
      [mlNode] := by
  constructor
  · intro data sel d filterText h
    simp [isNodeHighlighted, h, labelMatches, jsIncludes]
  · decide

/-- Witness for C2 at a concrete input: searching the exact label of
the "机器学习" node of the initial sample data highlights it. -/
theorem search_highlights_matching_labels_witness :
    (isNodeHighlighted INITIAL_DATA "机器学习" none mlNode = true ↔
      (jsToLower "机器学习").data <:+: (jsToLower mlNode.label).data) ∧
    0 < ("机器学习" : String).length :=
  ⟨search_highlights_matching_labels.1 INITIAL_DATA none mlNode "机器学习" (by decide),
   by decide⟩

/-- C3: at the initial sample data, the search "机器学习" is active and
has a match, yet the auto-center pass issues no viewport animation: the
first match's `x` and `y` are read from `data.nodes`, which the
simulation never writes (it mutates deep copies), so the truthiness
guard fails and the documented centering never happens. -/
theorem autoCenter_skipped_on_initial_data :
    INITIAL_DATA.nodes.any (fun n => labelMatches n "机器学习") = true ∧
    0 < ("机器学习" : String).length ∧
    autoCenter INITIAL_DATA "机器学习" { width := 800, height := 600 } = none := by
  decide

/-- Counterexample to C4: replacing the graph while the search box
holds "机器学习" leaves the search text in place — it is not discarded
with the old node set. -/
theorem replaceGraph_keeps_filterText :
    (replaceGraph stateBeforeReplace sampleReplacement).filterText = "机器学习" ∧
    ("机器学习" : String) ≠ "" := by
  refine ⟨rfl, by decide⟩

/-- C4 (amended): on every graph replacement with a non-empty node
list, the selection is cleared, the new simulation starts on fresh
copies of the new data only (so no pin of the old working set
survives), the previous simulation is stopped before the new one
starts and every older simulation stays stopped; the search text,
however, persists unchanged. -/
theorem replaceGraph_resets_selection_and_simulation
    (s : AppState) (d : GraphData) (hd : d.nodes ≠ [])
    (hInv : ∀ sim ∈ s.sims.tail, sim.stopped = true) :
    (replaceGraph s d).selectedNode = none ∧
    (replaceGraph s d).graphData = d ∧
    (replaceGraph s d).filterText = s.filterText ∧
    (replaceGraph s d).sims = mkSimulation d :: stopCurrent s.sims ∧
    (mkSimulation d).nodes = d.nodes.map copyNode ∧
    (∀ n, copyNode n = n) ∧
    (∀ sim ∈ stopCurrent s.sims, sim.stopped = true) := by
  have hne : d.nodes.isEmpty = false := by
    cases h : d.nodes with
    | nil => exact absurd h hd
    | cons a as => rfl
  refine ⟨?_, ?_, ?_, ?_, rfl, ?_, ?_⟩
  · simp [replaceGraph, simulationEffect, hne]
  · simp [replaceGraph, simulationEffect, hne]
  · simp [replaceGraph, simulationEffect, hne]
  · simp [replaceGraph, simulationEffect, hne]
  · intro n; rfl
  · intro sim hsim
    cases hs : s.sims with
    | nil => simp [stopCurrent, hs] at hsim
    | cons s0 rest =>
        rw [hs] at hsim
        simp only [stopCurrent, List.mem_cons] at hsim
        rcases hsim with h | h
        · rw [h]
        · exact hInv sim (by rw [hs]; exact h)

/-- Witness for C4 (amended) at a concrete input: replacing the
initial sample data (search "机器学习" active, one running simulation)
with a one-node graph. -/
theorem replaceGraph_resets_selection_and_simulation_witness :
    (replaceGraph stateBeforeReplace sampleReplacement).selectedNode = none ∧
    (replaceGraph stateBeforeReplace sampleReplacement).graphData = sampleReplacement ∧
    (replaceGraph stateBeforeReplace sampleReplacement).filterText =
      stateBeforeReplace.filterText ∧
    (replaceGraph stateBeforeReplace sampleReplacement).sims =
      mkSimulation sampleReplacement :: stopCurrent stateBeforeReplace.sims ∧
    (mkSimulation sampleReplacement).nodes = sampleReplacement.nodes.map copyNode ∧
    (∀ n, copyNode n = n) ∧
    (∀ sim ∈ stopCurrent stateBeforeReplace.sims, sim.stopped = true) :=
  replaceGraph_resets_selection_and_simulation stateBeforeReplace sampleReplacement
    (by decide) (by intro sim h; simp [stateBeforeReplace] at h)

/-- C5: graph replacement is all-or-nothing — a failed generation
leaves the stored graph untouched, an unparsable import leaves it
untouched, any import either leaves it untouched or installs exactly a
payload that passed the full validation, and the concrete payload whose
`links` field is not an array is rejected. -/
theorem replacement_all_or_nothing :
    (∀ (s : AppState) (m : String),
        (handleGenerate s (.err m)).graphData = s.graphData) ∧
    (∀ current : Json, handleFileUpload current none = current) ∧
    (∀ (current : Json) (content : Option Json),
        handleFileUpload current content = current ∨
        ∃ j, content = some j ∧ handleFileUpload current content = j ∧
          ∃ ns ls, j.get? "nodes" = some (.arr ns) ∧
            j.get? "links" = some (.arr ls) ∧ ns.all nodeFieldsValid = true) ∧
    (∀ current : Json, handleFileUpload current (some badLinksImport) = current) := by
  refine ⟨fun s m => rfl, fun current => rfl, ?_, fun current => rfl⟩
  intro current content
  match content with
  | none => exact Or.inl rfl
  | some j =>
    simp only [handleFileUpload]
    rcases hn : j.get? "nodes" with _ | jn
    · exact Or.inl rfl
    · rcases jn with _ | b | q | st | ns | fs
      · exact Or.inl rfl
      · exact Or.inl rfl
      · exact Or.inl rfl
      · exact Or.inl rfl
      · rcases hl : j.get? "links" with _ | jl
        · exact Or.inl rfl
        · rcases jl with _ | b' | q' | st' | ls | fs'
          · exact Or.inl rfl
          · exact Or.inl rfl
          · exact Or.inl rfl
          · exact Or.inl rfl
          · by_cases hv : ns.all nodeFieldsValid = true
            · exact Or.inr ⟨j, rfl, by simp [hv], ns, ls, hn, hl, hv⟩
            · simp only [Bool.not_eq_true] at hv
              simp [hv]
          · exact Or.inl rfl
      · exact Or.inl rfl

/-- C6: a link is highlighted by the selected node's id on either
endpoint when a selection is active; otherwise, under an active search,
exactly when both endpoints resolve and both labels match; otherwise it
is highlighted; and whenever search or selection is active, the
highlight flag drives opacity (1 versus 0.1) and stroke (accent versus
default). -/
theorem link_highlight_rule
    (data : GraphData) (filterText : String) (l : GraphLink) :
    (∀ sel : GraphNode,
        (isLinkHighlighted data filterText (some sel) l = true ↔
          l.source.refId = sel.id ∨ l.target.refId = sel.id)) ∧
    (0 < filterText.length →
        (isLinkHighlighted data filterText none l = true ↔
          ∃ sn tn, resolveRef data l.source = some sn ∧
            resolveRef data l.target = some tn ∧
            labelMatches sn filterText = true ∧
            labelMatches tn filterText = true)) ∧
    (filterText.length = 0 → isLinkHighlighted data filterText none l = true) ∧
    (∀ sel : Option GraphNode,
        (0 < filterText.length ∨ sel.isSome = true) →
        linkOpacity data filterText sel l =
          (if isLinkHighlighted data filterText sel l then 1 else 1/10) ∧
        linkStroke data filterText sel l =
          (if isLinkHighlighted data filterText sel l then accentStroke
           else defaultStroke)) := by
  refine ⟨?_, ?_, ?_, ?_⟩
  · intro sel; simp [isLinkHighlighted]
  · intro h
    simp only [isLinkHighlighted, h, if_pos]
    rcases hs : resolveRef data l.source with _ | sn
    · simp
    · rcases ht : resolveRef data l.target with _ | tn
      · simp
      · simp
  · intro h; simp [isLinkHighlighted, h]
  · intro sel h
    have hcond : (filterText.length == 0 && sel.isNone) = false := by
      rcases h with h | h
      · have : filterText.length ≠ 0 := Nat.pos_iff_ne_zero.mp h
        simp [this]
      · cases sel with
        | none => simp at h
        | some v => simp
    constructor
    · simp [linkOpacity, hcond]
    · simp [linkStroke, hcond]

/-- Witness for C6 at a concrete input: with search "学习" and no
selection, the sample link from "机器学习" to "深度学习" is highlighted
exactly by the both-endpoints rule. -/
theorem link_highlight_rule_witness :
    isLinkHighlighted INITIAL_DATA "学习" none mlDlLink = true ↔
      ∃ sn tn, resolveRef INITIAL_DATA mlDlLink.source = some sn ∧
        resolveRef INITIAL_DATA mlDlLink.target = some tn ∧
        labelMatches sn "学习" = true ∧ labelMatches tn "学习" = true :=
  (link_highlight_rule INITIAL_DATA "学习" mlDlLink).2.1 (by decide)

/-- C7: with non-empty search text, node highlighting is decided by the
label match alone — any selection (including none at all) yields the
same highlight flag. -/
theorem search_overrides_selection_for_nodes
    (data : GraphData) (filterText : String) (d : GraphNode)
    (h : 0 < filterText.length) :
    ∀ sel sel' : Option GraphNode,
      isNodeHighlighted data filterText sel d = labelMatches d filterText ∧
      isNodeHighlighted data filterText sel d =
        isNodeHighlighted data filterText sel' d := by
  intro sel sel'
  unfold isNodeHighlighted
  rw [if_pos h, if_pos h]
  exact ⟨rfl, rfl⟩

/-- Witness for C7 at a concrete input: searching "机器学习" with the
"人工智能" node selected highlights the same nodes as with no
selection. -/
theorem search_overrides_selection_for_nodes_witness :
    isNodeHighlighted INITIAL_DATA "机器学习" (some aiNode) mlNode =
      labelMatches mlNode "机器学习" ∧
    isNodeHighlighted INITIAL_DATA "机器学习" (some aiNode) mlNode =
      isNodeHighlighted INITIAL_DATA "机器学习" none mlNode :=
  search_overrides_selection_for_nodes INITIAL_DATA "机器学习" mlNode
    (by decide) (some aiNode) none

/-- C8: starting from any scale within the configured extent, no
sequence of zoom gestures can take the viewport scale outside
[0.1, 4]. -/
theorem zoom_scale_clamped
    (gestures : List ℚ) (k0 : ℚ)
    (h1 : scaleExtentLo ≤ k0) (h2 : k0 ≤ scaleExtentHi) :
    scaleExtentLo ≤ zoomScaleAfter gestures k0 ∧
    zoomScaleAfter gestures k0 ≤ scaleExtentHi := by
  induction gestures generalizing k0 with
  | nil => exact ⟨h1, h2⟩
  | cons g gs ih =>
      have hlo : scaleExtentLo ≤ applyZoomGesture k0 g := le_max_left _ _
      have hhi : applyZoomGesture k0 g ≤ scaleExtentHi := by
        unfold applyZoomGesture
        exact max_le (by norm_num [scaleExtentLo, scaleExtentHi]) (min_le_left _ _)
      exact ih _ hlo hhi

/-- Witness for C8 at a concrete input: an aggressive gesture sequence
(zoom to 100, to 0.001, to 50) starting from the identity scale 1 stays
within the extent. -/
theorem zoom_scale_clamped_witness :
    scaleExtentLo ≤ zoomScaleAfter [100, 1/1000, 50] 1 ∧
    zoomScaleAfter [100, 1/1000, 50] 1 ≤ scaleExtentHi :=
  zoom_scale_clamped [100, 1/1000, 50] 1 (by norm_num [scaleExtentLo])
    (by norm_num [scaleExtentHi])

/-- C9: after a graph replacement, any sequence of simulation ticks and
drag gestures acts only on the working copies, so the JSON export is
exactly the pretty-printed serialization of the graph as it was
installed. -/
theorem export_serializes_unmutated_graph
    (s0 : AppState) (d : GraphData) (events : List SimEvent) :
    exportJSON (events.foldl applySimEvent (replaceGraph s0 d)) =
      renderJson 0 (graphToJson d) := by
  have hfold : ∀ (es : List SimEvent) (s : AppState),
      (es.foldl applySimEvent s).graphData = s.graphData := by
    intro es
    induction es with
    | nil => intro s; rfl
    | cons e es ih => intro s; rw [List.foldl_cons, ih]; rfl
  have hrep : (replaceGraph s0 d).graphData = d := by
    cases h : d.nodes.isEmpty <;> simp [replaceGraph, simulationEffect, h]
  rw [exportJSON, hfold, hrep]

/-- C10: a payload with an empty `nodes` array and an empty `links`
array passes the import validation and replaces the stored graph, but
the simulation effect then returns before clearing the SVG, so the
previously drawn graph stays on screen while the in-memory graph has no
nodes. -/
theorem empty_import_keeps_stale_svg :
    (∀ current : Json,
        handleFileUpload current (some emptyGraphJson) = emptyGraphJson) ∧
    (∀ (s : AppState) (d : GraphData), d.nodes = [] →
        (replaceGraph s d).svg = s.svg ∧ (replaceGraph s d).graphData = d) := by
  constructor
  · intro current; rfl
  · intro s d h
    have hempty : d.nodes.isEmpty = true := by rw [h]; rfl
    constructor <;> simp [replaceGraph, simulationEffect, hempty]

/-- Witness for C10 at a concrete input: importing the empty graph over
the displayed initial sample data keeps the old drawing on screen. -/
theorem empty_import_keeps_stale_svg_witness :
    (replaceGraph stateBeforeReplace emptyGraph).svg = stateBeforeReplace.svg ∧
    (replaceGraph stateBeforeReplace emptyGraph).graphData = emptyGraph :=
  empty_import_keeps_stale_svg.2 stateBeforeReplace emptyGraph rfl

end KnowledgeGraphApp
